import Mathlib

/-!
Shallow embedding of the dock layout persistence and reconstruction engine
from `crates/ui/src/dock/panel.rs` (gpui-component).

Conventions of the embedding:
* `Pixels` (a numeric wrapper in gpui) is modelled as `Int`; size values are
  only carried around by this subsystem, never computed with.
* `serde_json::Value` is modelled opaquely as its serialized text.
* Rust panics (`unwrap`, `expect`, `unreachable!`) are modelled as
  `Except.error` carrying the panic message.
* The mutable `WindowContext`/global state visible to this subsystem is the
  `PanelRegistry`; functions taking `&mut` context are modelled by threading
  the registry value through and returning it.
* Factories are modelled as pure functions `DockItemInfo → PanelView`: per the
  spec the registry is populated before any layout is reconstructed and is
  read-only thereafter, and factory invocation has no effect on the registry.
-/

/-- Model of `gpui::Pixels`: a length value, only carried by this subsystem. -/
abbrev Pixels := Int

/-- Model of `gpui::Axis`. -/
inductive Axis
  | horizontal
  | vertical
deriving DecidableEq, Repr

/-- Model of `serde_json::Value`: an opaque structured payload, modelled as
its serialized text. -/
abbrev JsonValue := String

/-- `DockItemInfo` from `panel.rs`: the layout-kind descriptor of one node.
`Stack` stores the split sizes (a mandatory length per child, the type cannot
express an auto-sized entry) and the axis encoded as a number
(0 = horizontal, 1 = vertical); `Tabs` stores the active tab index; `Custom`
carries an opaque payload. -/
inductive DockItemInfo
  | Stack (sizes : List Pixels) (axis : Nat)
  | Tabs (active_index : Nat)
  | Custom (value : JsonValue)
deriving DecidableEq, Repr

/-- `DockItemInfo::stack`: encodes the axis as 0 for horizontal, 1 otherwise. -/
def DockItemInfo.stack (sizes : List Pixels) (axis : Axis) : DockItemInfo :=
  DockItemInfo.Stack sizes (if axis = Axis.horizontal then 0 else 1)

/-- `DockItemInfo::tabs`. -/
def DockItemInfo.tabs (active_index : Nat) : DockItemInfo :=
  DockItemInfo.Tabs active_index

/-- `DockItemInfo::custom`. -/
def DockItemInfo.custom (value : JsonValue) : DockItemInfo :=
  DockItemInfo.Custom value

/-- `DockItemState` from `panel.rs`: the persisted LayoutNode — a panel-type
name, an ordered list of child nodes, and a layout-kind descriptor. -/
inductive DockItemState
  | mk (panel_name : String) (children : List DockItemState) (info : DockItemInfo)

/-- Field accessor for `DockItemState.panel_name`. -/
def DockItemState.panel_name : DockItemState → String
  | .mk n _ _ => n

/-- Field accessor for `DockItemState.children`. -/
def DockItemState.children : DockItemState → List DockItemState
  | .mk _ c _ => c

/-- Field accessor for `DockItemState.info`. -/
def DockItemState.info : DockItemState → DockItemInfo
  | .mk _ _ i => i

/-- `DockItemState::new`: a leaf node with the given panel name, no children,
and a default `Tabs { active_index: 0 }` layout-kind. -/
def DockItemState.new (panel_name : String) : DockItemState :=
  DockItemState.mk panel_name [] (DockItemInfo.Tabs 0)

/-- `DockItemState::add_child`: pushes a child node at the end of `children`.
No validation is performed. -/
def DockItemState.add_child (s : DockItemState) (panel : DockItemState) : DockItemState :=
  match s with
  | .mk n c i => DockItemState.mk n (c ++ [panel]) i

/-- Model of `Box<dyn PanelView>`: of the capability contract, the only
operation the reconstruction and persistence claims depend on is `dump`. -/
structure PanelView where
  dump : DockItemState

/-- The factory function type stored in the registry
(`fn(WeakView<DockArea>, DockItemInfo, &mut WindowContext) -> Box<dyn PanelView>`);
the weak dock-area reference and window context carry no state relevant here
(the registry is read-only during reconstruction), so a factory is a pure
function of the layout-kind data. -/
abbrev Factory := DockItemInfo → PanelView

/-- `PanelRegistry` from `panel.rs`: the process-wide name-to-factory map,
modelled as an association list with `HashMap` semantics (at most one entry
per key). -/
structure PanelRegistry where
  items : List (String × Factory)

/-- `HashMap::get`: the value stored under `k`, if any. -/
def mapGet (m : List (String × Factory)) (k : String) : Option Factory :=
  match m with
  | [] => none
  | (k1, v) :: rest => if k1 = k then some v else mapGet rest k

/-- `HashMap::insert`: stores `v` under `k`, returning the updated map and the
value previously stored under `k` (`none` when `k` was absent). -/
def mapInsert (m : List (String × Factory)) (k : String) (v : Factory) :
    List (String × Factory) × Option Factory :=
  match m with
  | [] => ([(k, v)], none)
  | (k1, v1) :: rest =>
    if k1 = k then ((k, v) :: rest, some v1)
    else
      let r := mapInsert rest k v
      ((k1, v1) :: r.1, r.2)

/-- `register_panel` from `panel.rs`: inserts the factory under `panel_name`
into the global registry and calls `.unwrap()` on the value returned by
`insert` — the PREVIOUS value under that name. The `unwrap` panics (modelled
as `Except.error`) exactly when the name was not yet present. -/
def register_panel (reg : PanelRegistry) (panel_name : String) (deserialize : Factory) :
    Except String PanelRegistry :=
  let r := mapInsert reg.items panel_name deserialize
  match r.2 with
  | some _ => Except.ok (PanelRegistry.mk r.1)
  | none => Except.error "called Option unwrap on a None value"

/-- Modelled from the spec: `DockItem`, the live container tree, is defined in
`dock/mod.rs`, which is not part of the sources here. Per the spec (sections 2
and 4.3) a live container is either a split container (an axis, the live child
items, and one optional length per child, a missing length meaning auto-size)
or a tabbed container (the live child items and the initially active index).
The composition calls in `to_item` pass exactly these data. -/
inductive DockItem
  | Split (axis : Axis) (items : List DockItem) (sizes : List (Option Pixels))
  | Tabs (items : List DockItem) (active_index : Option Nat)

/-- Modelled from the spec: `DockItem::split_with_sizes` is defined in
`dock/mod.rs`, not part of the sources here. Per the spec (sections 4.3 and 8)
it builds a split container along the axis, each child constrained to its
corresponding size entry, and reconstruction fails with a corrupt-layout
error when the number of sizes differs from the number of children — it does
not silently truncate or pad. -/
def DockItem.split_with_sizes (axis : Axis) (items : List DockItem)
    (sizes : List (Option Pixels)) : Except String DockItem :=
  if sizes.length = items.length then
    Except.ok (DockItem.Split axis items sizes)
  else
    Except.error "corrupt layout"

/-- Modelled from the spec: `DockItem::tabs` is defined in `dock/mod.rs`, not
part of the sources here. Per the spec (sections 4.3 and 9) the source builds
the tabbed container with the given active index and neither clamps nor
validates it against the number of children. -/
def DockItem.tabs (items : List DockItem) (active_index : Option Nat) : DockItem :=
  DockItem.Tabs items active_index

mutual

/-- `DockItemState::to_item` from `panel.rs`: looks up the node's factory in
the registry (`expect`-panicking when absent, modelled as `Except.error`),
invokes it on the layout-kind data (the resulting view is not used further by
the source), recursively rebuilds the children, and composes according to the
layout-kind: `Stack` decodes the axis (0 is horizontal, otherwise vertical)
and calls `split_with_sizes` wrapping every size in `Some`; `Tabs` calls
`DockItem::tabs` with the stored index; any other variant reaches
`unreachable!()` (modelled as `Except.error` with the panic message). The
registry state is threaded through and returned. -/
def DockItemState.to_item (reg : PanelRegistry) (s : DockItemState) :
    Except String DockItem × PanelRegistry :=
  match s with
  | .mk panel_name children info =>
    match mapGet reg.items panel_name with
    | none =>
      (Except.error ("The " ++ panel_name ++ " panel type is not registed in PanelRegistry."),
        reg)
    | some f =>
      let _view := f info
      match to_items reg children with
      | (Except.error e, reg1) => (Except.error e, reg1)
      | (Except.ok items, reg1) =>
        match info with
        | .Stack sizes axis =>
          let ax := if axis = 0 then Axis.horizontal else Axis.vertical
          (DockItem.split_with_sizes ax items (sizes.map some), reg1)
        | .Tabs active_index => (Except.ok (DockItem.tabs items (some active_index)), reg1)
        | .Custom _ => (Except.error "internal error: entered unreachable code", reg1)

/-- The recursive rebuild of a node's children performed inside `to_item`
(`self.children.iter().map(|child| child.to_item(..)).collect()`): children
are rebuilt left to right, the first failure propagating. -/
def to_items (reg : PanelRegistry) (l : List DockItemState) :
    Except String (List DockItem) × PanelRegistry :=
  match l with
  | [] => (Except.ok [], reg)
  | c :: cs =>
    match DockItemState.to_item reg c with
    | (Except.error e, reg1) => (Except.error e, reg1)
    | (Except.ok i, reg1) =>
      match to_items reg1 cs with
      | (Except.error e, reg2) => (Except.error e, reg2)
      | (Except.ok is, reg2) => (Except.ok (i :: is), reg2)

end

mutual

/-- Holds when no split container anywhere in a live tree has an auto-sized
(missing) size entry. -/
def DockItem.no_auto_sizes : DockItem → Bool
  | .Split _ items sizes => sizes.all Option.isSome && no_auto_sizes_list items
  | .Tabs items _ => no_auto_sizes_list items

/-- `DockItem.no_auto_sizes` over a list of live items. -/
def no_auto_sizes_list : List DockItem → Bool
  | [] => true
  | d :: ds => DockItem.no_auto_sizes d && no_auto_sizes_list ds

end

/-- A pure-reflection factory for a panel registered as `notes`: its view
dumps back exactly the panel name and the layout-kind data it was
constructed from. -/
def notesFactory : Factory := fun i => PanelView.mk (DockItemState.mk "notes" [] i)

/-- A pure-reflection factory for a panel registered as `editor`. -/
def editorFactory : Factory := fun i => PanelView.mk (DockItemState.mk "editor" [] i)

/-- A pure-reflection factory for a panel registered as `terminal`. -/
def terminalFactory : Factory := fun i => PanelView.mk (DockItemState.mk "terminal" [] i)

/-- A registry holding only the `notes` panel. -/
def regNotes : PanelRegistry := PanelRegistry.mk [("notes", notesFactory)]

/-- A registry holding the `editor` and `terminal` panels. -/
def regET : PanelRegistry :=
  PanelRegistry.mk [("editor", editorFactory), ("terminal", terminalFactory)]

mutual

/-- Reconstruction never mutates the registry: the registry returned by
`to_item` is the one it was given, on success and on failure alike. -/
theorem to_item_frame (reg : PanelRegistry) (s : DockItemState) :
    (DockItemState.to_item reg s).2 = reg := by
  match s with
  | .mk n children i =>
    unfold DockItemState.to_item
    cases hg : mapGet reg.items n with
    | none => rfl
    | some f =>
      have hc := to_items_frame reg children
      rcases hcc : to_items reg children with ⟨e, r1⟩
      rw [hcc] at hc
      cases e with
      | error msg => exact hc
      | ok items =>
        cases i with
        | Stack sizes axis => exact hc
        | Tabs ix => exact hc
        | Custom v => exact hc

/-- Rebuilding a list of children never mutates the registry. -/
theorem to_items_frame (reg : PanelRegistry) (l : List DockItemState) :
    (to_items reg l).2 = reg := by
  match l with
  | [] => rfl
  | c :: cs =>
    have h1 := to_item_frame reg c
    rcases hc : DockItemState.to_item reg c with ⟨e, r1⟩
    rw [hc] at h1
    cases e with
    | error msg =>
      unfold to_items
      rw [hc]
      exact h1
    | ok i =>
      have h2 := to_items_frame r1 cs
      rcases hcs : to_items r1 cs with ⟨e2, r2⟩
      rw [hcs] at h2
      unfold to_items
      rw [hc]
      dsimp only
      rw [hcs]
      cases e2 with
      | error msg => exact h2.trans h1
      | ok is => exact h2.trans h1

end

/-- A successful rebuild of a children list produces exactly one live item
per child. -/
theorem to_items_ok_length (l : List DockItemState) (reg : PanelRegistry)
    (items : List DockItem) (r : PanelRegistry)
    (h : to_items reg l = (Except.ok items, r)) : items.length = l.length := by
  induction l generalizing reg items r with
  | nil =>
    unfold to_items at h
    injection h with h1 h2
    injection h1 with h1
    subst h1
    rfl
  | cons c cs ih =>
    unfold to_items at h
    rcases hc : DockItemState.to_item reg c with ⟨e, r1⟩
    rw [hc] at h
    cases e with
    | error msg => simp at h
    | ok i =>
      dsimp only at h
      rcases hcs : to_items r1 cs with ⟨e2, r2⟩
      rw [hcs] at h
      cases e2 with
      | error msg => simp at h
      | ok is =>
        dsimp only at h
        injection h with h1 h2
        injection h1 with h1
        subst h1
        simp [ih r1 is r2 hcs]

mutual

/-- Every live tree produced by a successful reconstruction satisfies
`no_auto_sizes`: split containers always receive one explicit size per
child, each wrapped in `some`. -/
theorem to_item_no_auto (reg : PanelRegistry) (s : DockItemState) (d : DockItem)
    (r : PanelRegistry) (h : DockItemState.to_item reg s = (Except.ok d, r)) :
    DockItem.no_auto_sizes d = true := by
  match s with
  | .mk n children i =>
    unfold DockItemState.to_item at h
    cases hg : mapGet reg.items n with
    | none => rw [hg] at h; simp at h
    | some f =>
      rw [hg] at h
      dsimp only at h
      rcases hcc : to_items reg children with ⟨e, r1⟩
      rw [hcc] at h
      cases e with
      | error msg => simp at h
      | ok items =>
        dsimp only at h
        have hitems := to_items_no_auto reg children items r1 hcc
        cases i with
        | Stack sizes axis =>
          dsimp only at h
          unfold DockItem.split_with_sizes at h
          by_cases hl : (sizes.map some).length = items.length
          · rw [if_pos hl] at h
            injection h with h1 h2
            injection h1 with h1
            subst h1
            unfold DockItem.no_auto_sizes
            simp [List.all_map, Function.comp, hitems]
          · rw [if_neg hl] at h
            simp at h
        | Tabs ix =>
          dsimp only at h
          injection h with h1 h2
          injection h1 with h1
          subst h1
          unfold DockItem.tabs DockItem.no_auto_sizes
          exact hitems
        | Custom v =>
          dsimp only at h
          simp at h

/-- Every live-item list produced by a successful children rebuild satisfies
`no_auto_sizes_list`. -/
theorem to_items_no_auto (reg : PanelRegistry) (l : List DockItemState)
    (items : List DockItem) (r : PanelRegistry)
    (h : to_items reg l = (Except.ok items, r)) :
    no_auto_sizes_list items = true := by
  match l with
  | [] =>
    unfold to_items at h
    injection h with h1 h2
    injection h1 with h1
    subst h1
    rfl
  | c :: cs =>
    unfold to_items at h
    rcases hc : DockItemState.to_item reg c with ⟨e, r1⟩
    rw [hc] at h
    cases e with
    | error msg => simp at h
    | ok i =>
      dsimp only at h
      rcases hcs : to_items r1 cs with ⟨e2, r2⟩
      rw [hcs] at h
      cases e2 with
      | error msg => simp at h
      | ok is =>
        dsimp only at h
        injection h with h1 h2
        injection h1 with h1
        subst h1
        have hh := to_item_no_auto reg c i r1 hc
        have ht := to_items_no_auto r1 cs is r2 hcs
        unfold no_auto_sizes_list
        rw [hh, ht]
        rfl

end

/-- Claim C1: the claim states that registering a fresh panel name succeeds
and a duplicate registration fails. The source does the reverse:
`register_panel` calls `.unwrap()` on the previous value returned by
`HashMap::insert`, so the very first registration of `notes` into an empty
registry panics, while re-registering an already present `notes` returns
normally (silently replacing the factory). -/
theorem register_panel_polarity_inverted :
    register_panel (PanelRegistry.mk []) "notes" notesFactory =
      Except.error "called Option unwrap on a None value" ∧
    register_panel (PanelRegistry.mk [("notes", notesFactory)]) "notes" notesFactory =
      Except.ok (PanelRegistry.mk [("notes", notesFactory)]) :=
  ⟨rfl, rfl⟩

/-- Claim C2: the claim states that dumping the live tree built from a valid
LayoutNode tree reproduces the tree (panel_name included) whenever every
panel dump purely reflects its construction input. In the source `to_item`
discards the factory-built view and the composition calls receive only the
child items and the layout-kind data, so the two distinct leaf nodes
`editor` and `terminal` (both registered, with pure-reflection factories)
rebuild to IDENTICAL live items: no dump of the live tree can return
`editor` for one and `terminal` for the other, so the round trip cannot
hold. -/
theorem to_item_forgets_panel_name :
    (∀ i, (editorFactory i).dump = DockItemState.mk "editor" [] i) ∧
    (∀ i, (terminalFactory i).dump = DockItemState.mk "terminal" [] i) ∧
    DockItemState.to_item regET (DockItemState.new "editor") =
      DockItemState.to_item regET (DockItemState.new "terminal") ∧
    DockItemState.new "editor" ≠ DockItemState.new "terminal" := by
  refine ⟨fun i => rfl, fun i => rfl, rfl, ?_⟩
  intro h
  injection h with h1 h2 h3
  exact absurd h1 (by decide)

/-- Claim C3: the claim states that a `Custom` layout-kind reaching the
composition step fails with an explicit unsupported-layout-kind error and
never reaches unreachable code. The source's `to_item` has no `Custom` arm:
the wildcard arm panics via the unreachable-code macro (modelled as an error
carrying the panic message), as evaluated here on a registered `Custom`
leaf. -/
theorem custom_layout_hits_wildcard_panic :
    DockItemState.to_item regNotes
        (DockItemState.mk "notes" [] (DockItemInfo.custom "custom-data")) =
      (Except.error "internal error: entered unreachable code", regNotes) :=
  rfl

/-- Claim C4: reconstructing a node whose panel name is absent from the
registry fails with the unknown-panel-type error, and the registry it
returns is exactly the one it was given (no mutation). -/
theorem to_item_unregistered_fails (reg : PanelRegistry) (s : DockItemState)
    (h : mapGet reg.items s.panel_name = none) :
    DockItemState.to_item reg s =
      (Except.error
        ("The " ++ s.panel_name ++ " panel type is not registed in PanelRegistry."), reg) := by
  obtain ⟨n, children, i⟩ := s
  simp only [DockItemState.panel_name] at h
  unfold DockItemState.to_item
  rw [h]
  rfl

/-- Witness for claim C4: the name `unregistered-x` is absent from the empty
registry, and reconstruction of its leaf fails with the unknown-panel-type
error, returning the registry unchanged. -/
theorem to_item_unregistered_witness :
    mapGet (PanelRegistry.mk ([] : List (String × Factory))).items
        (DockItemState.mk "unregistered-x" [] (DockItemInfo.Tabs 0)).panel_name = none ∧
    DockItemState.to_item (PanelRegistry.mk [])
        (DockItemState.mk "unregistered-x" [] (DockItemInfo.Tabs 0)) =
      (Except.error
        ("The " ++ "unregistered-x" ++ " panel type is not registed in PanelRegistry."),
        PanelRegistry.mk []) :=
  ⟨rfl, to_item_unregistered_fails (PanelRegistry.mk [])
    (DockItemState.mk "unregistered-x" [] (DockItemInfo.Tabs 0)) rfl⟩

/-- Claim C5: for a Split (Stack) node whose name is registered and whose
children all rebuild, reconstruction fails with the corrupt-layout error
when the number of sizes differs from the number of children, and otherwise
succeeds, building a split container that holds the recursively built
children and their sizes positionally (the i-th size constraining the i-th
child). -/
theorem to_item_split_sizes_positional (reg : PanelRegistry) (n : String)
    (children : List DockItemState) (sizes : List Pixels) (axis : Nat)
    (f : Factory) (items : List DockItem)
    (hf : mapGet reg.items n = some f)
    (hc : to_items reg children = (Except.ok items, reg)) :
    (sizes.length ≠ children.length →
      DockItemState.to_item reg (DockItemState.mk n children (DockItemInfo.Stack sizes axis)) =
        (Except.error "corrupt layout", reg)) ∧
    (sizes.length = children.length →
      DockItemState.to_item reg (DockItemState.mk n children (DockItemInfo.Stack sizes axis)) =
        (Except.ok (DockItem.Split (if axis = 0 then Axis.horizontal else Axis.vertical)
          items (sizes.map some)), reg)) := by
  have hlen : items.length = children.length := to_items_ok_length children reg items reg hc
  constructor <;> intro h <;>
    (unfold DockItemState.to_item
     rw [hf]
     dsimp only
     rw [hc]
     dsimp only
     unfold DockItem.split_with_sizes
     rw [List.length_map, hlen])
  · rw [if_neg h]
  · rw [if_pos h]

/-- Witness for claim C5: with `notes` registered and one child that
rebuilds, a Stack node with one size succeeds and carries the size
positionally. -/
theorem to_item_split_sizes_witness :
    mapGet regNotes.items "notes" = some notesFactory ∧
    to_items regNotes [DockItemState.new "notes"] =
      (Except.ok [DockItem.Tabs [] (some 0)], regNotes) ∧
    ((5 : Pixels) :: []).length = [DockItemState.new "notes"].length ∧
    DockItemState.to_item regNotes
        (DockItemState.mk "notes" [DockItemState.new "notes"] (DockItemInfo.Stack [5] 0)) =
      (Except.ok (DockItem.Split Axis.horizontal [DockItem.Tabs [] (some 0)] [some 5]),
        regNotes) :=
  ⟨rfl, rfl, rfl,
    (to_item_split_sizes_positional regNotes "notes" [DockItemState.new "notes"] [5] 0
      notesFactory [DockItem.Tabs [] (some 0)] rfl rfl).2 rfl⟩

/-- Claim C6: the claim states that a Tabs node with an out-of-range
`active_index` must fail or clamp rather than proceed. The source does
neither: with one child and `active_index = 5`, reconstruction succeeds and
composes the tabbed container with the out-of-range index 5 unchanged; with
an in-range index it succeeds with the given index. -/
theorem tabs_active_index_not_validated :
    DockItemState.to_item regNotes
        (DockItemState.mk "notes" [DockItemState.new "notes"] (DockItemInfo.Tabs 5)) =
      (Except.ok (DockItem.Tabs [DockItem.Tabs [] (some 0)] (some 5)), regNotes) ∧
    5 ≥ [DockItemState.new "notes"].length ∧
    DockItemState.to_item regNotes
        (DockItemState.mk "notes" [DockItemState.new "notes"] (DockItemInfo.Tabs 0)) =
      (Except.ok (DockItem.Tabs [DockItem.Tabs [] (some 0)] (some 0)), regNotes) :=
  ⟨rfl, by decide, rfl⟩

/-- Claim C7: the persisted Stack layout-kind stores a mandatory length per
child (its sizes list cannot express an auto-sized entry), and `to_item`
wraps every stored size in `Some`, so every split container anywhere in a
successfully rebuilt live tree has only explicit (non-auto) sizes. -/
theorem rebuilt_tree_no_auto_sized (reg : PanelRegistry) (s : DockItemState)
    (d : DockItem) (r : PanelRegistry)
    (h : DockItemState.to_item reg s = (Except.ok d, r)) :
    DockItem.no_auto_sizes d = true :=
  to_item_no_auto reg s d r h

/-- Witness for claim C7: a Stack node with one registered child rebuilds
successfully and the resulting live tree has no auto-sized entry. -/
theorem rebuilt_tree_no_auto_sized_witness :
    DockItemState.to_item regNotes
        (DockItemState.mk "notes" [DockItemState.new "notes"] (DockItemInfo.Stack [5] 0)) =
      (Except.ok (DockItem.Split Axis.horizontal [DockItem.Tabs [] (some 0)] [some 5]),
        regNotes) ∧
    DockItem.no_auto_sizes
        (DockItem.Split Axis.horizontal [DockItem.Tabs [] (some 0)] [some 5]) = true :=
  ⟨rfl, rebuilt_tree_no_auto_sized regNotes
    (DockItemState.mk "notes" [DockItemState.new "notes"] (DockItemInfo.Stack [5] 0))
    (DockItem.Split Axis.horizontal [DockItem.Tabs [] (some 0)] [some 5]) regNotes rfl⟩

/-- Claim C8: the `stack` constructor encodes a horizontal axis as 0 and a
vertical axis as 1, and `to_item` decodes a stored 0 as horizontal and a
stored 1 as vertical, so for both axis values decoding the encoding through
an actual reconstruction yields the original axis. -/
theorem stack_axis_roundtrip (reg : PanelRegistry) (n : String) (f : Factory)
    (hf : mapGet reg.items n = some f) :
    (∀ sizes, DockItemInfo.stack sizes Axis.horizontal = DockItemInfo.Stack sizes 0 ∧
      DockItemInfo.stack sizes Axis.vertical = DockItemInfo.Stack sizes 1) ∧
    (∀ ax : Axis,
      DockItemState.to_item reg (DockItemState.mk n [] (DockItemInfo.stack [] ax)) =
        (Except.ok (DockItem.Split ax [] []), reg)) := by
  constructor
  · intro sizes
    exact ⟨rfl, rfl⟩
  · intro ax
    unfold DockItemState.to_item
    rw [hf]
    cases ax <;> rfl

/-- Witness for claim C8: with `notes` registered, a leaf Stack node encoded
from the vertical axis rebuilds to a vertical split. -/
theorem stack_axis_roundtrip_witness :
    mapGet regNotes.items "notes" = some notesFactory ∧
    DockItemState.to_item regNotes
        (DockItemState.mk "notes" [] (DockItemInfo.stack [] Axis.vertical)) =
      (Except.ok (DockItem.Split Axis.vertical [] []), regNotes) :=
  ⟨rfl, (stack_axis_roundtrip regNotes "notes" notesFactory rfl).2 Axis.vertical⟩

/-- Claim C9: `DockItemState::new` yields a node whose panel name equals the
given name, whose children list is empty, and whose layout-kind is
`Tabs { active_index: 0 }`; and `add_child` appends a child unconditionally
(it is total, with no size or index validation). -/
theorem new_leaf_defaults_add_child_appends :
    ∀ n : String,
      (DockItemState.new n).panel_name = n ∧
      (DockItemState.new n).children = [] ∧
      (DockItemState.new n).info = DockItemInfo.Tabs 0 ∧
      ∀ (s c : DockItemState),
        (DockItemState.add_child s c).children = s.children ++ [c] := by
  intro n
  refine ⟨rfl, rfl, rfl, ?_⟩
  intro s c
  obtain ⟨m, cs, i⟩ := s
  rfl

/-- Claim C10: frame property of `add_child`: only the children list
changes — the new children list is the old one with the new child appended
at the end (so every previously present child is kept, in place) — while the
panel name and the layout-kind are left unchanged. -/
theorem add_child_frame_property :
    ∀ (s c : DockItemState),
      (DockItemState.add_child s c).panel_name = s.panel_name ∧
      (DockItemState.add_child s c).info = s.info ∧
      (DockItemState.add_child s c).children = s.children ++ [c] := by
  intro s c
  obtain ⟨m, cs, i⟩ := s
  exact ⟨rfl, rfl, rfl⟩
